import Mathlib

/-!
Verification of the xopen library (pycompression/xopen) against its
natural-language specification.  The Python source in src/xopen/__init__.py is
shallowly embedded below: pure decision logic becomes Lean functions, the
stateful close() teardown becomes explicit state passing with an event trace,
and raised exceptions become Option/Except values.
-/

namespace Xopen

/-! ## Process-teardown model for PipedCompressionReader / PipedCompressionWriter

`PipedCompressionReader._raise_if_error` (xopen/__init__.py lines 426-465) and
`close` (lines 387-399), `PipedCompressionWriter.close` (lines 283-303).
-/

/-- Per-program termination-waiver settings of a `PipedCompressionReader`
subclass: the class attributes `_allowed_exit_code` and
`_allowed_exit_message` (lines 319-323).  `none` models Python `None`. -/
structure ReaderSettings where
  allowed_exit_code : Option Int
  allowed_exit_message : Option String
deriving DecidableEq

/-- Base-class defaults (lines 320-323): `_allowed_exit_code = -signal.SIGTERM`
(= -15 on Linux), `_allowed_exit_message = None`. -/
def base_reader_settings : ReaderSettings :=
  { allowed_exit_code := some (-15), allowed_exit_message := none }

/-- Overrides of `PipedPBzip2Reader` (lines 634-635): `_allowed_exit_code = None`,
`_allowed_exit_message = b"\n *Control-C or similar caught [sig=15], quitting..."`. -/
def pbzip2_reader_settings : ReaderSettings :=
  { allowed_exit_code := none,
    allowed_exit_message := some "\n *Control-C or similar caught [sig=15], quitting..." }

/-- Python `m.startswith(p)`, character by character. -/
def py_startswith (p s : String) : Bool := p.data.isPrefixOf s.data

/-- Python `s.endswith(suffix)`, character by character. -/
def py_endswith (s suffix : String) : Bool := suffix.data.isSuffixOf s.data

/-- Errors raised at close time.  `osError stderr code` models the reader's
`OSError("{!r} (exit code {})".format(stderr_message, retcode))` (line 465):
the exception embeds the captured stderr text and the exit code.
`writerError args code` models the writer's
`OSError("Output process '...' terminated with exit code ...")` (lines 297-303). -/
inductive CloseError where
  | osError (stderr_message : String) (exit_code : Int)
  | writerError (program_args : List String) (exit_code : Int)
deriving DecidableEq

/-- Python truthiness test `self._allowed_exit_message and
stderr_message.startswith(self._allowed_exit_message)` (lines 454-456):
`None` and `b""` are falsy. -/
def message_waiver (s : ReaderSettings) (stderr_message : String) : Bool :=
  match s.allowed_exit_message with
  | some m => !(m == "") && py_startswith m stderr_message
  | none => false

/-- Embedding of `PipedCompressionReader._raise_if_error` (lines 426-465).  `retcode` is the
result of `self.process.poll()`; `none` means the process is still running.
Returns `some e` when the Python code raises `OSError`.
(The re-read of stderr at line 462 when `stderr_message` is empty returns the
already-drained, hence empty, stream on the close() path and is a no-op.) -/
def raise_if_error (s : ReaderSettings) (win32 : Bool) (retcode : Option Int)
    (check_allowed_code_and_message : Bool) (stderr_message : String) :
    Option CloseError :=
  if win32 && retcode == some 1 && stderr_message == "" then
    none
  else
    match retcode with
    | none => none
    | some r =>
      if r == 0 then none
      else if check_allowed_code_and_message &&
          (some r == s.allowed_exit_code || message_waiver s stderr_message) then
        none
      else
        some (.osError stderr_message r)

/-- Observable teardown actions performed by `PipedCompressionReader.close`. -/
inductive ReaderEvent where
  | terminate
  | communicate
  | close_file
deriving DecidableEq

/-- State owned by a reader that matters to `close()`: the `closed` flag. -/
structure ReaderState where
  closed : Bool
deriving DecidableEq

/-- The child-process observations made during one `close()` call:
`poll_at_close` is what `self.process.poll()` returns at line 391 (`none` =
still running, so the process is deliberately terminated), `final_exit_code`
is the exit status after `communicate()`, and `stderr` is the stderr output
collected by `communicate()` (line 397). -/
structure ReaderCloseCtx where
  poll_at_close : Option Int
  final_exit_code : Int
  stderr : String
deriving DecidableEq

/-- Embedding of `PipedCompressionReader.close` (lines 387-399): no-op when already closed;
otherwise set `closed`, terminate the child if still running (remembering that
termination was deliberate), collect stderr, close the file and delegate to
`_raise_if_error`. -/
def reader_close (s : ReaderSettings) (win32 : Bool) (st : ReaderState)
    (ctx : ReaderCloseCtx) : ReaderState × List ReaderEvent × Option CloseError :=
  if st.closed then
    (st, [], none)
  else
    let check_allowed_code_and_message := ctx.poll_at_close == none
    let events :=
      (if check_allowed_code_and_message then [ReaderEvent.terminate] else [])
        ++ [ReaderEvent.communicate, ReaderEvent.close_file]
    ({ closed := true }, events,
      raise_if_error s win32 (some ctx.final_exit_code)
        check_allowed_code_and_message ctx.stderr)

/-- Observable teardown actions performed by `PipedCompressionWriter.close`. -/
inductive WriterEvent where
  | close_file
  | wait
  | close_outfile
deriving DecidableEq

/-- State owned by a writer that matters to `close()`. -/
structure WriterState where
  closed : Bool
deriving DecidableEq

/-- The child-process observations made during one writer `close()` call. -/
structure WriterCloseCtx where
  retcode : Int
  program_args : List String
deriving DecidableEq

/-- Embedding of `PipedCompressionWriter.close` (lines 283-303): no-op when already closed;
otherwise set `closed`, close the pipe, wait for the child, close the output
file, and raise if the exit code is nonzero. -/
def writer_close (st : WriterState) (ctx : WriterCloseCtx) :
    WriterState × List WriterEvent × Option CloseError :=
  if st.closed then
    (st, [], none)
  else
    ({ closed := true },
      [WriterEvent.close_file, WriterEvent.wait, WriterEvent.close_outfile],
      if ctx.retcode == 0 then none
      else some (.writerError ctx.program_args ctx.retcode))

/-! ## Argument-vector construction

`PipedCompressionReader.__init__` (lines 344-359) and
`PipedCompressionWriter._open_process` (lines 254-278).
-/

/-- The effective thread count of a reader, mirroring lines 350-360:
when a `threads_flag` is given and `threads is None`, the default is 1
(single-threaded behaviour by default); without a flag, `threads` is kept
as given. -/
def reader_effective_threads (threads_flag : Option String) (threads : Option Int) :
    Option Int :=
  match threads_flag with
  | none => threads
  | some _ => some (threads.getD 1)

/-- The argument vector built by `PipedCompressionReader.__init__`
(lines 344-359): `program_args + ["-cd", path]`, then, when a thread flag is
declared, `[f"{threads_flag}{threads}"]` with the defaulted thread count. -/
def reader_program_args (program_args : List String) (path : String)
    (threads_flag : Option String) (threads : Option Int) : List String :=
  let args := program_args ++ ["-cd", path]
  match threads_flag with
  | none => args
  | some flag => args ++ [flag ++ toString ((reader_effective_threads threads_flag threads).getD 1)]

/-- The effective thread count of a writer, mirroring
`PipedCompressionWriter.__init__` lines 225-227: `threads is None` defaults to
`min(_available_cpu_count(), 4)`; the available CPU count is an environment
input. -/
def writer_effective_threads (cpu_count : Int) (threads : Option Int) : Int :=
  threads.getD (min cpu_count 4)

/-- The argument vector built by `PipedCompressionWriter._open_process`
(lines 254-266): thread flag appended when `threads != 0` and a flag is
declared, then `["-" + str(compresslevel)]` when writing with a level. -/
def writer_program_args (program_args : List String) (threads_flag : Option String)
    (threads : Int) (mode_has_w : Bool) (compresslevel : Option Int) : List String :=
  let args := program_args ++
    (match threads_flag with
     | some flag => if threads == 0 then [] else [flag ++ toString threads]
     | none => [])
  args ++
    (match compresslevel with
     | some l => if mode_has_w then ["-" ++ toString l] else []
     | none => [])

/-- Embedding of `PipedZstdReader.__init__` (lines 789-810): it passes `["zstd"]` as the program
arguments, no thread flag and no thread count, so the full vector comes from
`reader_program_args`. -/
def zstd_reader_args (path : String) : List String :=
  reader_program_args ["zstd"] path none none

/-- Embedding of `PipedZstdWriter` (lines 813-854): it passes `["zstd"]`, thread flag `"-T"` and
the compression level to `PipedCompressionWriter`. -/
def zstd_writer_args (compresslevel : Int) (threads : Int) : List String :=
  writer_program_args ["zstd"] (some "-T") threads true (some compresslevel)

/-! ## Compression-level validation of the piped writers

Lines 539-540 (gzip), 591-615 (pigz), 726-750 (xz), 819-843 (zstd),
882-883 (igzip).
-/

/-- Python `l in range(a, b)` for an integer `l`. -/
def inPyRange (a b l : Int) : Bool := decide (a ≤ l) && decide (l < b)

/-- The `compresslevel not in range(1, 10)` check of `PipedGzipWriter` (line 539). -/
def gzip_level_accepted (l : Int) : Bool := inPyRange 1 10 l

/-- The set `_accepted_compression_levels = set(list(range(10)) + [11])` of
`PipedPigzWriter` (line 591). -/
def pigz_level_accepted (l : Int) : Bool := inPyRange 0 10 l || l == 11

/-- The `compresslevel not in range(0, 4)` check of `PipedIGzipWriter` (line 882). -/
def igzip_level_accepted (l : Int) : Bool := inPyRange 0 4 l

/-- The set `_accepted_compression_levels = set(range(10))` of `PipedXzWriter`
(line 726). -/
def xz_level_accepted (l : Int) : Bool := inPyRange 0 10 l

/-- The set `_accepted_compression_levels = set(range(1, 20))` of `PipedZstdWriter`
(line 819). -/
def zstd_level_accepted (l : Int) : Bool := inPyRange 1 20 l

/-- The test `compresslevel is not None and compresslevel not in <accepted>`. -/
def level_rejected (accepted : Int → Bool) : Option Int → Bool
  | none => false
  | some l => !accepted l

/-- External codec programs that may be spawned. -/
inductive Tool where
  | igzip
  | pigz
  | gzip
  | pbzip2
  | xz
  | zstd
deriving DecidableEq

/-- Observable side effects of constructing a piped reader/writer: opening the
target file and attempting to spawn an external program. -/
inductive Event where
  | openFile
  | spawn (t : Tool)
deriving DecidableEq

/-- Errors that can escape the selector functions. -/
inductive OpenErr where
  | valueError (msg : String)
  | osError
  | importError (msg : String)
  | assertionError
deriving DecidableEq

/-- The stream implementations the selector can produce. -/
inductive Backend where
  | pipedIGzipReader
  | pipedIGzipWriter
  | pipedPigzReader
  | pipedPigzWriter
  | pipedGzipReader
  | pipedGzipWriter
  | pipedPBzip2Reader
  | pipedPBzip2Writer
  | pipedXzReader
  | pipedXzWriter
  | pipedZstdReader
  | pipedZstdWriter
  | igzipThreadedOpen
  | igzipOpen
  | gzipOpen
  | reproducibleGzip
  | bz2Open
  | lzmaOpen
  | zstandardOpen
  | plainOpen
deriving DecidableEq

/-- Whether a backend runs an external subprocess (the Piped* classes). -/
def Backend.isPiped : Backend → Bool
  | .pipedIGzipReader | .pipedIGzipWriter
  | .pipedPigzReader | .pipedPigzWriter
  | .pipedGzipReader | .pipedGzipWriter
  | .pipedPBzip2Reader | .pipedPBzip2Writer
  | .pipedXzReader | .pipedXzWriter
  | .pipedZstdReader | .pipedZstdWriter => true
  | _ => false

/-- Embedding of `PipedCompressionWriter.__init__` after level validation (lines 210-236):
the output file is opened first, then the program is spawned; a spawn failure
raises `OSError` after closing the file. -/
def piped_writer_spawn (t : Tool) (spawn_ok : Bool) (b : Backend) :
    List Event × Except OpenErr Backend :=
  if spawn_ok then ([Event.openFile, Event.spawn t], Except.ok b)
  else ([Event.openFile, Event.spawn t], Except.error OpenErr.osError)

/-- Embedding of `PipedGzipWriter.__init__` (lines 522-550): reject the level with
`ValueError("compresslevel must be between 1 and 9")` before opening the file
or spawning, else open and spawn `gzip --no-name`. -/
def PipedGzipWriter_init (spawn_ok : Bool) (compresslevel : Option Int) :
    List Event × Except OpenErr Backend :=
  if level_rejected gzip_level_accepted compresslevel then
    ([], Except.error (OpenErr.valueError "compresslevel must be between 1 and 9"))
  else
    piped_writer_spawn Tool.gzip spawn_ok Backend.pipedGzipWriter

/-- Embedding of `PipedPigzWriter.__init__` (lines 593-626). -/
def PipedPigzWriter_init (spawn_ok : Bool) (compresslevel : Option Int) :
    List Event × Except OpenErr Backend :=
  if level_rejected pigz_level_accepted compresslevel then
    ([], Except.error (OpenErr.valueError "compresslevel must be between 0 and 9 or 11"))
  else
    piped_writer_spawn Tool.pigz spawn_ok Backend.pipedPigzWriter

/-- Embedding of `PipedIGzipWriter.__init__` (lines 872-892). -/
def PipedIGzipWriter_init (spawn_ok : Bool) (compresslevel : Option Int) :
    List Event × Except OpenErr Backend :=
  if level_rejected igzip_level_accepted compresslevel then
    ([], Except.error (OpenErr.valueError "compresslevel must be between 0 and 3"))
  else
    piped_writer_spawn Tool.igzip spawn_ok Backend.pipedIGzipWriter

/-- Embedding of `PipedXzWriter.__init__` (lines 728-761). -/
def PipedXzWriter_init (spawn_ok : Bool) (compresslevel : Option Int) :
    List Event × Except OpenErr Backend :=
  if level_rejected xz_level_accepted compresslevel then
    ([], Except.error (OpenErr.valueError "compresslevel must be between 0 and 9"))
  else
    piped_writer_spawn Tool.xz spawn_ok Backend.pipedXzWriter

/-- Embedding of `PipedZstdWriter.__init__` (lines 821-854). -/
def PipedZstdWriter_init (spawn_ok : Bool) (compresslevel : Option Int) :
    List Event × Except OpenErr Backend :=
  if level_rejected zstd_level_accepted compresslevel then
    ([], Except.error (OpenErr.valueError "compresslevel must be between 1 and 19"))
  else
    piped_writer_spawn Tool.zstd spawn_ok Backend.pipedZstdWriter

/-! ## Backend selector

`_open_gz` (lines 1057-1101), `_open_bz2` (940-950), `_open_xz` (953-979),
`_open_zst` (982-1021) and the helpers `_open_external_gzip_reader`
(1024-1037) and `_open_external_gzip_writer` (1040-1054).
-/

/-- The process-wide environment the selector consults: which optional modules
are importable, whether `igzip_threaded.open` accepts the requested level,
the `_can_read_concatenated_gz("igzip")` probe result, and whether spawning
each external tool succeeds (`False` models `OSError` from `Popen`, i.e. the
tool is not installed). -/
structure Env where
  igzip_threaded : Bool
  igzip : Bool
  zstandard : Bool
  igzip_threaded_level_ok : Bool
  can_read_concatenated_gz : Bool
  spawn_igzip : Bool
  spawn_pigz : Bool
  spawn_gzip : Bool
  spawn_pbzip2 : Bool
  spawn_xz : Bool
  spawn_zstd : Bool
deriving DecidableEq

/-- Mode kind: `"r" in mode`, `"w" in mode` or append (`"a"`). -/
inductive ModeK where
  | read
  | write
  | append
deriving DecidableEq

/-- A normalized xopen mode (one of rt, rb, wt, wb, at, ab). -/
structure Mode where
  k : ModeK
  binary : Bool
deriving DecidableEq

/-- Python `"r" in mode`. -/
def Mode.hasR (m : Mode) : Bool := m.k == ModeK.read

/-- Python `"w" in mode`. -/
def Mode.hasW (m : Mode) : Bool := m.k == ModeK.write

/-- Embedding of `_open_external_gzip_reader` (lines 1024-1037): try `PipedIGzipReader`
(which first runs the concatenated-gz probe and raises `ValueError` when it
fails, both `OSError` and `ValueError` are caught), then `PipedPigzReader`
(`OSError` caught), then `PipedGzipReader` (whose `OSError` propagates). -/
def open_external_gzip_reader (env : Env) : List Event × Except OpenErr Backend :=
  if env.spawn_igzip && env.can_read_concatenated_gz then
    ([Event.spawn Tool.igzip], Except.ok Backend.pipedIGzipReader)
  else
    if env.spawn_pigz then
      ([Event.spawn Tool.igzip, Event.spawn Tool.pigz], Except.ok Backend.pipedPigzReader)
    else if env.spawn_gzip then
      ([Event.spawn Tool.igzip, Event.spawn Tool.pigz, Event.spawn Tool.gzip],
        Except.ok Backend.pipedGzipReader)
    else
      ([Event.spawn Tool.igzip, Event.spawn Tool.pigz, Event.spawn Tool.gzip],
        Except.error OpenErr.osError)

/-- Embedding of `_open_external_gzip_writer` (lines 1040-1054): try `PipedIGzipWriter`
(`OSError` and `ValueError` caught), then `PipedPigzWriter` (only `OSError`
caught, a `ValueError` propagates), then `PipedGzipWriter` (errors
propagate). -/
def open_external_gzip_writer (env : Env) (compresslevel : Option Int) :
    List Event × Except OpenErr Backend :=
  match PipedIGzipWriter_init env.spawn_igzip compresslevel with
  | (t1, Except.ok b) => (t1, Except.ok b)
  | (t1, Except.error _) =>
    match PipedPigzWriter_init env.spawn_pigz compresslevel with
    | (t2, Except.ok b) => (t1 ++ t2, Except.ok b)
    | (t2, Except.error OpenErr.osError) =>
      match PipedGzipWriter_init env.spawn_gzip compresslevel with
      | (t3, r) => (t1 ++ t2 ++ t3, r)
    | (t2, Except.error e) => (t1 ++ t2, Except.error e)

/-- The in-process branch at the bottom of `_open_gz` (lines 1089-1101):
reading uses `igzip.open`/`gzip.open`; writing uses
`_open_reproducible_gzip`, which opens the target file itself. -/
def open_gz_native (env : Env) (m : Mode) : List Event × Except OpenErr Backend :=
  if m.hasR then
    ([], Except.ok (if env.igzip then Backend.igzipOpen else Backend.gzipOpen))
  else
    ([Event.openFile], Except.ok Backend.reproducibleGzip)

/-- Embedding of `_open_gz` (lines 1057-1101): the threaded isal branch (skipped when
`threads == 0` or the level is rejected with `ValueError`), then the piped
ladder (skipped when `threads == 0`, its `OSError` falling through to the
in-process branch), then the in-process branch. -/
def open_gz (env : Env) (m : Mode) (compresslevel : Option Int)
    (threads : Option Int) : List Event × Except OpenErr Backend :=
  if env.igzip_threaded && !(threads == some 0) && env.igzip_threaded_level_ok then
    ([], Except.ok Backend.igzipThreadedOpen)
  else if !(threads == some 0) then
    match
      (if m.hasR then open_external_gzip_reader env
       else open_external_gzip_writer env compresslevel) with
    | (t, Except.ok b) => (t, Except.ok b)
    | (t, Except.error OpenErr.osError) =>
      match open_gz_native env m with
      | (t2, r) => (t ++ t2, r)
    | (t, Except.error e) => (t, Except.error e)
  else
    open_gz_native env m

/-- Embedding of `_open_bz2` (lines 940-950): with `threads != 0`, try the piped pbzip2
reader/writer, catching `OSError`; fall back to in-process `bz2.open`. -/
def open_bz2 (env : Env) (m : Mode) (threads : Option Int) :
    List Event × Except OpenErr Backend :=
  if !(threads == some 0) then
    if m.hasR then
      if env.spawn_pbzip2 then
        ([Event.spawn Tool.pbzip2], Except.ok Backend.pipedPBzip2Reader)
      else
        ([Event.spawn Tool.pbzip2], Except.ok Backend.bz2Open)
    else
      if env.spawn_pbzip2 then
        ([Event.openFile, Event.spawn Tool.pbzip2], Except.ok Backend.pipedPBzip2Writer)
      else
        ([Event.openFile, Event.spawn Tool.pbzip2], Except.ok Backend.bz2Open)
  else
    ([], Except.ok Backend.bz2Open)

/-- Embedding of `_open_xz` (lines 953-979): default the level to 6, with `threads != 0`
try the piped xz reader/writer (`OSError` caught, a writer `ValueError`
propagates), fall back to in-process `lzma.open`. -/
def open_xz (env : Env) (m : Mode) (compresslevel : Option Int)
    (threads : Option Int) : List Event × Except OpenErr Backend :=
  let level := compresslevel.getD 6
  if !(threads == some 0) then
    if m.hasR then
      if env.spawn_xz then
        ([Event.spawn Tool.xz], Except.ok Backend.pipedXzReader)
      else
        ([Event.spawn Tool.xz], Except.ok Backend.lzmaOpen)
    else
      match PipedXzWriter_init env.spawn_xz (some level) with
      | (t, Except.ok b) => (t, Except.ok b)
      | (t, Except.error OpenErr.osError) => (t, Except.ok Backend.lzmaOpen)
      | (t, Except.error e) => (t, Except.error e)
  else
    ([], Except.ok Backend.lzmaOpen)

/-- Embedding of `_open_zst` (lines 982-1021): the `assert compresslevel != 0` first, default
the level to 3, with `threads != 0` try the piped zstd reader/writer; on
`OSError` re-raise when the `zstandard` module is absent, else fall through to
`zstandard.open`; with `threads == 0` use `zstandard.open` directly or raise
`ImportError`. -/
def open_zst (env : Env) (m : Mode) (compresslevel : Option Int)
    (threads : Option Int) : List Event × Except OpenErr Backend :=
  if compresslevel == some 0 then
    ([], Except.error OpenErr.assertionError)
  else
    let level := compresslevel.getD 3
    if !(threads == some 0) then
      if m.hasR then
        if env.spawn_zstd then
          ([Event.spawn Tool.zstd], Except.ok Backend.pipedZstdReader)
        else if env.zstandard then
          ([Event.spawn Tool.zstd], Except.ok Backend.zstandardOpen)
        else
          ([Event.spawn Tool.zstd], Except.error OpenErr.osError)
      else
        match PipedZstdWriter_init env.spawn_zstd (some level) with
        | (t, Except.ok b) => (t, Except.ok b)
        | (t, Except.error OpenErr.osError) =>
          if env.zstandard then (t, Except.ok Backend.zstandardOpen)
          else (t, Except.error OpenErr.osError)
        | (t, Except.error e) => (t, Except.error e)
    else
      if env.zstandard then
        ([], Except.ok Backend.zstandardOpen)
      else
        ([], Except.error
          (OpenErr.importError "zstandard module (python-zstandard) not available"))

/-! ## Format detection and dispatch

`_detect_format_from_content` (lines 1147-1171), `_detect_format_from_extension`
(lines 1174-1186) and the dispatch inside `xopen` (lines 1288-1312).
-/

/-- The four supported compression formats. -/
inductive Format where
  | gz
  | bz2
  | xz
  | zst
deriving DecidableEq

/-- Embedding of `_detect_format_from_extension` (lines 1174-1186): suffix match against
`.bz2`, `.xz`, `.gz`, `.zst` in that order. -/
def detect_format_from_extension (filename : String) : Option Format :=
  if py_endswith filename ".bz2" then some Format.bz2
  else if py_endswith filename ".xz" then some Format.xz
  else if py_endswith filename ".gz" then some Format.gz
  else if py_endswith filename ".zst" then some Format.zst
  else none

/-- Embedding of `_detect_format_from_content` (lines 1147-1171): only for regular files,
read the first 6 bytes and compare against the magic numbers; any failure
yields `none`.  `content` is the file's byte content. -/
def detect_format_from_content (is_regular_file : Bool) (content : List Nat) :
    Option Format :=
  if is_regular_file then
    let bs := content.take 6
    if bs.take 2 == [0x1f, 0x8b] then some Format.gz
    else if bs.take 3 == [0x42, 0x5a, 0x68] then some Format.bz2
    else if bs.take 6 == [0xfd, 0x37, 0x7a, 0x58, 0x5a, 0x00] then some Format.xz
    else if bs.take 4 == [0x28, 0xb5, 0x2f, 0xfd] then some Format.zst
    else none
  else
    none

/-- The format decision inside `xopen` (lines 1293-1295):
`detected_format = format or _detect_format_from_extension(filename)`, then
`if detected_format is None and "w" not in mode:
detected_format = _detect_format_from_content(filename)`. -/
def choose_format (fmt : Option Format) (filename : String) (m : Mode)
    (is_regular_file : Bool) (content : List Nat) : Option Format :=
  let detected :=
    match fmt with
    | some f => some f
    | none => detect_format_from_extension filename
  if detected == none && !m.hasW then
    detect_format_from_content is_regular_file content
  else
    detected

/-- The dispatch at the end of `xopen` (lines 1297-1312): route to the
per-format opener, or plain `open` when no format was detected. -/
def xopen_select (env : Env) (filename : String) (is_regular_file : Bool)
    (content : List Nat) (fmt : Option Format) (m : Mode)
    (compresslevel : Option Int) (threads : Option Int) :
    List Event × Except OpenErr Backend :=
  match choose_format fmt filename m is_regular_file content with
  | some Format.gz => open_gz env m compresslevel threads
  | some Format.xz => open_xz env m compresslevel threads
  | some Format.bz2 => open_bz2 env m threads
  | some Format.zst => open_zst env m compresslevel threads
  | none => ([], Except.ok Backend.plainOpen)

/-! ## Reproducible gzip output

`_open_reproducible_gzip` (lines 1104-1144) and the `--no-name` program
arguments of the gzip-family piped writers (lines 543, 618, 886, 924).
-/

/-- The keyword arguments `_open_reproducible_gzip` hands to the encoder it
constructs. -/
structure GzipEncoderArgs where
  filename : String
  mtime : Nat
  compresslevel : Int
  use_igzip : Bool
deriving DecidableEq

/-- The constant `isal_zlib.ISAL_DEFAULT_COMPRESSION` (= 2 in python-isal), used as the
default level for the igzip-backed encoder. -/
def ISAL_DEFAULT_COMPRESSION : Int := 2

/-- Embedding of `_open_reproducible_gzip` (lines 1104-1144): open the target file, then
construct `igzip.IGzipFile` (when isal is importable and accepts the level)
or `gzip.GzipFile`, in both cases with `filename=""` and `mtime=0` and the
per-backend default compression level. -/
def open_reproducible_gzip (igzip_available : Bool) (igzip_level_ok : Bool)
    (compresslevel : Option Int) : GzipEncoderArgs :=
  if igzip_available && igzip_level_ok then
    { filename := "", mtime := 0,
      compresslevel := compresslevel.getD ISAL_DEFAULT_COMPRESSION,
      use_igzip := true }
  else
    { filename := "", mtime := 0,
      compresslevel := compresslevel.getD 6,
      use_igzip := false }

/-- A 32-bit little-endian encoding of a natural number. -/
def le32 (n : Nat) : List Nat :=
  [n % 256, n / 256 % 256, n / 65536 % 256, n / 16777216 % 256]

/-- The FNAME flag bit of the gzip FLG header byte. -/
def FNAME : Nat := 8

/-- Modelled from the spec: the gzip member header written by the native
encoders (`gzip.GzipFile` / `igzip.IGzipFile`, outside this repository) per
RFC 1952, as a function of the `filename` and `mtime` the encoder was
constructed with — magic `1F 8B`, method 8, a FLG byte whose FNAME bit is set
exactly when a filename is stored, the 4-byte little-endian mtime, XFL and OS
bytes, then the zero-terminated filename when present. -/
def gzip_header (filename : String) (mtime : Nat) (xfl os : Nat) : List Nat :=
  let flg := if filename == "" then 0 else FNAME
  [0x1f, 0x8b, 8, flg] ++ le32 (mtime % 2 ^ 32) ++ [xfl, os] ++
    (if filename == "" then []
     else filename.data.map Char.toNat ++ [0])

/-- Program arguments of `PipedGzipWriter` (line 543). -/
def gzip_writer_program_args : List String := ["gzip", "--no-name"]

/-- Program arguments of `PipedPigzWriter` (line 618). -/
def pigz_writer_program_args : List String := ["pigz", "--no-name"]

/-- Program arguments of `PipedIGzipWriter` (line 886). -/
def igzip_writer_program_args : List String := ["igzip", "--no-name"]

/-- Program arguments of `PipedPythonIsalWriter` (line 924), with
`sys.executable` abstracted. -/
def python_isal_writer_program_args (python_executable : String) : List String :=
  [python_executable, "-m", "isal.igzip", "--no-name"]


theorem raise_if_error_none_iff (s : ReaderSettings) (r : Int) (check : Bool)
    (stderr : String) :
    raise_if_error s false (some r) check stderr = none ↔
      r = 0 ∨ (check = true ∧
        (some r = s.allowed_exit_code ∨
          ∃ m, s.allowed_exit_message = some m ∧ m ≠ "" ∧
            py_startswith m stderr = true)) := by
  obtain ⟨code, msg⟩ := s
  cases msg with
  | none => simp [raise_if_error, message_waiver]; tauto
  | some m =>
    by_cases hm : m = "" <;> by_cases hp : py_startswith m stderr = true <;>
      simp [raise_if_error, message_waiver, hm, hp] <;> tauto

theorem raise_if_error_some (s : ReaderSettings) (r : Int) (check : Bool)
    (stderr : String) :
    (raise_if_error s false (some r) check stderr).getD
        (CloseError.osError stderr r) = CloseError.osError stderr r := by
  obtain ⟨code, msg⟩ := s
  simp only [raise_if_error, message_waiver]
  split_ifs <;> simp

/-- C1: on a not-yet-closed `PipedCompressionReader` (non-Windows), `close()`
interprets the child's exit status as follows: no error is raised exactly when
the exit code is 0, or the process was still running at close() time (hence
deliberately terminated) and either the exit code equals the program's allowed
exit code or the captured stderr starts with the program's (nonempty) allowed
message; whenever an error is raised it is an OSError embedding the captured
stderr text and the exit code. -/
theorem reader_close_exit_status_interpretation
    (s : ReaderSettings) (ctx : ReaderCloseCtx) :
    ((reader_close s false (ReaderState.mk false) ctx).2.2 = none ↔
      (ctx.final_exit_code = 0 ∨
        (ctx.poll_at_close = none ∧
          (some ctx.final_exit_code = s.allowed_exit_code ∨
            ∃ m, s.allowed_exit_message = some m ∧ m ≠ "" ∧
              py_startswith m ctx.stderr = true))))
    ∧ ((reader_close s false (ReaderState.mk false) ctx).2.2).getD
        (CloseError.osError ctx.stderr ctx.final_exit_code) =
      CloseError.osError ctx.stderr ctx.final_exit_code := by
  obtain ⟨poll, final, stderr⟩ := ctx
  constructor
  · rw [show (reader_close s false (ReaderState.mk false)
        ⟨poll, final, stderr⟩).2.2 =
        raise_if_error s false (some final) (poll == none) stderr from rfl]
    rw [raise_if_error_none_iff]
    cases poll <;> simp
  · exact raise_if_error_some s final (poll == none) stderr

/-- C2 counterexample: for the pbzip2 reader, a deliberate termination whose
exit code is `-SIGTERM` (= -15) with empty stderr is NOT waived: close()
raises, because `PipedPBzip2Reader._allowed_exit_code` is `None`.  This
refutes the claim that a benign signal exit code alone suffices. -/
theorem pbzip2_sigterm_exit_alone_not_waived :
    (reader_close pbzip2_reader_settings false (ReaderState.mk false)
        (ReaderCloseCtx.mk none (-15) "")).2.2 =
      some (CloseError.osError "" (-15)) := by decide

/-- C2 amended: for the pbzip2 reader, when close() deliberately terminates
the still-running child, the error is waived exactly when the captured stderr
starts with the Control-C message (or the exit code is 0); the stderr match
alone suffices even for a nonzero, non-signal exit code, and the exit code
itself never waives (the allowed exit code is None). -/
theorem pbzip2_waiver_is_message_only (r : Int) (stderr : String) :
    (reader_close pbzip2_reader_settings false (ReaderState.mk false)
        (ReaderCloseCtx.mk none r stderr)).2.2 = none ↔
      (r = 0 ∨
        py_startswith "\n *Control-C or similar caught [sig=15], quitting..."
          stderr = true) := by
  rw [show (reader_close pbzip2_reader_settings false (ReaderState.mk false)
      ⟨none, r, stderr⟩).2.2 =
      raise_if_error pbzip2_reader_settings false (some r) ((none : Option Int) == none)
        stderr from rfl]
  rw [raise_if_error_none_iff]
  simp [pbzip2_reader_settings]

/-- C3: close() is idempotent and the `closed` flag is monotonic, for both
piped readers and piped writers: after any close() call the flag is true, a
close() on an already-closed stream is a no-op that performs no teardown and
returns no error, and a second close() right after a first one (whether or not
the first raised) does nothing. -/
theorem close_idempotent_and_monotonic
    (s : ReaderSettings) (w : Bool) (st : ReaderState) (c1 c2 c3 : ReaderCloseCtx)
    (wst : WriterState) (w1 w2 w3 : WriterCloseCtx) :
    ((reader_close s w st c1).1.closed = true)
    ∧ (reader_close s w (ReaderState.mk true) c3 = (ReaderState.mk true, [], none))
    ∧ (reader_close s w (reader_close s w st c1).1 c2 =
        ((reader_close s w st c1).1, [], none))
    ∧ ((writer_close wst w1).1.closed = true)
    ∧ (writer_close (WriterState.mk true) w3 = (WriterState.mk true, [], none))
    ∧ (writer_close (writer_close wst w1).1 w2 =
        ((writer_close wst w1).1, [], none)) := by
  obtain ⟨c⟩ := st
  obtain ⟨cw⟩ := wst
  cases c <;> cases cw <;> simp [reader_close, writer_close]


/-- C4: each piped writer validates `compresslevel` against its program's
acceptable set before opening any file or spawning any process — gzip 1-9,
pigz 0-9 plus 11, igzip 0-3, xz 0-9, zstd 1-19.  A level outside the set
yields a ValueError, with an empty event trace (nothing opened, nothing
spawned), whose message starts with (hence contains) the substring
"compresslevel must be"; a level inside the set proceeds to open the output
file and spawn the program. -/
theorem writer_compresslevel_validation (sp : Bool) (l : Int) :
    (PipedGzipWriter_init sp (some l) =
      if 1 ≤ l ∧ l ≤ 9 then piped_writer_spawn Tool.gzip sp Backend.pipedGzipWriter
      else ([], Except.error (OpenErr.valueError "compresslevel must be between 1 and 9")))
    ∧ (PipedPigzWriter_init sp (some l) =
      if (0 ≤ l ∧ l ≤ 9) ∨ l = 11 then
        piped_writer_spawn Tool.pigz sp Backend.pipedPigzWriter
      else ([], Except.error (OpenErr.valueError "compresslevel must be between 0 and 9 or 11")))
    ∧ (PipedIGzipWriter_init sp (some l) =
      if 0 ≤ l ∧ l ≤ 3 then piped_writer_spawn Tool.igzip sp Backend.pipedIGzipWriter
      else ([], Except.error (OpenErr.valueError "compresslevel must be between 0 and 3")))
    ∧ (PipedXzWriter_init sp (some l) =
      if 0 ≤ l ∧ l ≤ 9 then piped_writer_spawn Tool.xz sp Backend.pipedXzWriter
      else ([], Except.error (OpenErr.valueError "compresslevel must be between 0 and 9")))
    ∧ (PipedZstdWriter_init sp (some l) =
      if 1 ≤ l ∧ l ≤ 19 then piped_writer_spawn Tool.zstd sp Backend.pipedZstdWriter
      else ([], Except.error (OpenErr.valueError "compresslevel must be between 1 and 19")))
    ∧ ("compresslevel must be between 1 and 9" =
        "compresslevel must be" ++ " between 1 and 9")
    ∧ ("compresslevel must be between 0 and 9 or 11" =
        "compresslevel must be" ++ " between 0 and 9 or 11")
    ∧ ("compresslevel must be between 0 and 3" =
        "compresslevel must be" ++ " between 0 and 3")
    ∧ ("compresslevel must be between 0 and 9" =
        "compresslevel must be" ++ " between 0 and 9")
    ∧ ("compresslevel must be between 1 and 19" =
        "compresslevel must be" ++ " between 1 and 19") := by
  refine ⟨?_, ?_, ?_, ?_, ?_, rfl, rfl, rfl, rfl, rfl⟩
  · by_cases h : 1 ≤ l ∧ l ≤ 9
    · have hb : gzip_level_accepted l = true := by
        simp [gzip_level_accepted, inPyRange]; omega
      simp [PipedGzipWriter_init, level_rejected, hb, h]
    · have hb : gzip_level_accepted l = false := by
        simp [gzip_level_accepted, inPyRange]; omega
      simp [PipedGzipWriter_init, level_rejected, hb, h]
  · by_cases h : (0 ≤ l ∧ l ≤ 9) ∨ l = 11
    · have hb : pigz_level_accepted l = true := by
        simp [pigz_level_accepted, inPyRange]; omega
      simp [PipedPigzWriter_init, level_rejected, hb, h]
    · have hb : pigz_level_accepted l = false := by
        simp [pigz_level_accepted, inPyRange]; omega
      simp [PipedPigzWriter_init, level_rejected, hb, h]
  · by_cases h : 0 ≤ l ∧ l ≤ 3
    · have hb : igzip_level_accepted l = true := by
        simp [igzip_level_accepted, inPyRange]; omega
      simp [PipedIGzipWriter_init, level_rejected, hb, h]
    · have hb : igzip_level_accepted l = false := by
        simp [igzip_level_accepted, inPyRange]; omega
      simp [PipedIGzipWriter_init, level_rejected, hb, h]
  · by_cases h : 0 ≤ l ∧ l ≤ 9
    · have hb : xz_level_accepted l = true := by
        simp [xz_level_accepted, inPyRange]; omega
      simp [PipedXzWriter_init, level_rejected, hb, h]
    · have hb : xz_level_accepted l = false := by
        simp [xz_level_accepted, inPyRange]; omega
      simp [PipedXzWriter_init, level_rejected, hb, h]
  · by_cases h : 1 ≤ l ∧ l ≤ 19
    · have hb : zstd_level_accepted l = true := by
        simp [zstd_level_accepted, inPyRange]; omega
      simp [PipedZstdWriter_init, level_rejected, hb, h]
    · have hb : zstd_level_accepted l = false := by
        simp [zstd_level_accepted, inPyRange]; omega
      simp [PipedZstdWriter_init, level_rejected, hb, h]

/-- C5 counterexample: at the concrete input `"file.zst"`, the piped zstd
reader's full argument vector is `zstd -cd file.zst` — it contains no element
carrying a long-distance-matching flag (nothing starting with `--long`),
refuting the claim that such a flag is appended for decompression. -/
theorem zstd_reader_args_no_long_flag :
    zstd_reader_args "file.zst" = ["zstd", "-cd", "file.zst"]
    ∧ (zstd_reader_args "file.zst").all
        (fun a => !(py_startswith "--long" a)) = true := by
  exact ⟨rfl, rfl⟩

/-- C5 amended: the piped zstd reader invokes the external zstd tool for
decompression with exactly the argument vector `zstd -cd <path>` (no
long-distance-matching flag), and the zstd writer's vector is exactly
`zstd [-T<threads>] -<level>` — neither direction passes a long-distance
flag. -/
theorem zstd_args_exact (path : String) (l t : Int) :
    zstd_reader_args path = ["zstd", "-cd", path]
    ∧ zstd_writer_args l t =
        ["zstd"] ++ (if t = 0 then [] else ["-T" ++ toString t]) ++
          ["-" ++ toString l] := by
  constructor
  · rfl
  · simp only [zstd_writer_args, writer_program_args]
    by_cases h : t = 0 <;> simp [h]

/-- C6: when the caller does not supply a thread count, a piped reader with a
thread-count flag defaults to 1 thread (the flag `<flag>1` is appended), and a
piped writer defaults to `min(available CPU count, 4)` threads. -/
theorem default_thread_counts (flag : String) (cpu : Int) (p : List String)
    (path : String) :
    reader_effective_threads (some flag) none = some 1
    ∧ reader_program_args p path (some flag) none =
        p ++ ["-cd", path] ++ [flag ++ "1"]
    ∧ writer_effective_threads cpu none = min cpu 4 := by
  refine ⟨rfl, ?_, rfl⟩
  show p ++ ["-cd", path] ++ [flag ++ toString (1 : Int)] = p ++ ["-cd", path] ++ [flag ++ "1"]
  rfl


/-- Whether an event is a subprocess spawn attempt. -/
def Event.isSpawn : Event → Bool
  | Event.spawn _ => true
  | Event.openFile => false

/-- Holds of a selector outcome that involved no external subprocess: no spawn
attempt was made and any resulting backend is an in-process one. -/
def no_subprocess (r : List Event × Except OpenErr Backend) : Bool :=
  r.1.all (fun e => !e.isSpawn) &&
    (match r.2 with
     | Except.ok b => !b.isPiped
     | Except.error _ => true)

/-- C7: for every supported format (and every environment, mode, filename and
compression level), calling xopen with `threads = 0` never spawns an external
subprocess: the selector skips every piped backend and resolves to an
in-process (native library or stdlib) branch. -/
theorem threads_zero_no_subprocess (env : Env) (filename : String)
    (is_regular_file : Bool) (content : List Nat) (fmt : Option Format)
    (m : Mode) (compresslevel : Option Int) :
    no_subprocess (xopen_select env filename is_regular_file content fmt m
      compresslevel (some 0)) = true := by
  unfold xopen_select
  cases hc : choose_format fmt filename m is_regular_file content with
  | none => simp [no_subprocess, Backend.isPiped]
  | some f =>
    cases f
    · simp only [open_gz, open_gz_native]
      split_ifs <;> simp_all [no_subprocess, Backend.isPiped, Event.isSpawn]
    · simp only [open_bz2]
      split_ifs <;> simp_all [no_subprocess, Backend.isPiped, Event.isSpawn]
    · simp only [open_xz]
      split_ifs <;> simp_all [no_subprocess, Backend.isPiped, Event.isSpawn]
    · simp only [open_zst]
      split_ifs <;> simp_all [no_subprocess, Backend.isPiped, Event.isSpawn]


/-- C8 counterexample: with no format override, a filename with no recognized
extension, and append mode "ab" (not a read mode), xopen DOES sniff the
content: a gz magic number makes it choose the gzip format, contradicting the
claim that sniffing happens in read mode only. -/
theorem content_sniffing_in_append_mode :
    choose_format none "archive.data" (Mode.mk ModeK.append true) true
      [0x1f, 0x8b, 0x08, 0x00, 0x00, 0x00] = some Format.gz := by decide

/-- C8 amended: xopen chooses the format exactly once per call — the explicit
override wins if given; otherwise the filename extension (exact trailing match
against .gz, .bz2, .xz, .zst) decides; otherwise, in every mode without "w"
(read AND append modes), the format is sniffed from the first at most 6 bytes
against the magic numbers gzip 1F 8B, bzip2 42 5A 68, xz FD 37 7A 58 5A 00,
zstd 28 B5 2F FD; in write mode no content sniffing occurs. -/
theorem format_choice_characterization (f : Format) (fn : String) (m : Mode)
    (b : Bool) (is_reg : Bool) (content : List Nat) (rest : List Nat) :
    choose_format (some f) fn m is_reg content = some f
    ∧ choose_format none fn (Mode.mk ModeK.write b) is_reg content =
        detect_format_from_extension fn
    ∧ (choose_format none fn (Mode.mk ModeK.read b) is_reg content =
        match detect_format_from_extension fn with
        | some e => some e
        | none => detect_format_from_content is_reg content)
    ∧ (choose_format none fn (Mode.mk ModeK.append b) is_reg content =
        match detect_format_from_extension fn with
        | some e => some e
        | none => detect_format_from_content is_reg content)
    ∧ detect_format_from_extension "a.gz" = some Format.gz
    ∧ detect_format_from_extension "a.bz2" = some Format.bz2
    ∧ detect_format_from_extension "a.xz" = some Format.xz
    ∧ detect_format_from_extension "a.zst" = some Format.zst
    ∧ detect_format_from_extension "a.tar" = none
    ∧ detect_format_from_content is_reg content =
        detect_format_from_content is_reg (content.take 6)
    ∧ detect_format_from_content true (0x1f :: 0x8b :: rest) = some Format.gz
    ∧ detect_format_from_content true (0x42 :: 0x5a :: 0x68 :: rest) = some Format.bz2
    ∧ detect_format_from_content true
        (0xfd :: 0x37 :: 0x7a :: 0x58 :: 0x5a :: 0x00 :: rest) = some Format.xz
    ∧ detect_format_from_content true (0x28 :: 0xb5 :: 0x2f :: 0xfd :: rest) =
        some Format.zst := by
  refine ⟨?_, ?_, ?_, ?_, by decide, by decide, by decide, by decide, by decide,
    ?_, ?_, ?_, ?_, ?_⟩
  · cases h : detect_format_from_extension fn <;>
      simp [choose_format, Mode.hasW, h]
  · cases h : detect_format_from_extension fn <;>
      simp [choose_format, Mode.hasW, h]
  · cases h : detect_format_from_extension fn <;>
      simp [choose_format, Mode.hasW, h]
  · cases h : detect_format_from_extension fn <;>
      simp [choose_format, Mode.hasW, h]
  · simp [detect_format_from_content, List.take_take]
  · simp [detect_format_from_content]
  · simp [detect_format_from_content]
  · simp [detect_format_from_content]
  · simp [detect_format_from_content]


/-- C9: every gzip output produced by xopen in write mode has a reproducible
header: `_open_reproducible_gzip` constructs the encoder with mtime forced to
0 and filename forced to empty whichever native library backs it, so the FNAME
bit of the 4th header byte is clear (the byte is 0) and header bytes 5-8 (the
mtime field) are zero; and every gzip-family subprocess writer carries the
`--no-name` flag in its program arguments. -/
theorem reproducible_gzip_header_invariant (ia ilo : Bool) (lvl : Option Int)
    (xfl os : Nat) (pyexe : String) :
    (open_reproducible_gzip ia ilo lvl).filename = ""
    ∧ (open_reproducible_gzip ia ilo lvl).mtime = 0
    ∧ (gzip_header (open_reproducible_gzip ia ilo lvl).filename
        (open_reproducible_gzip ia ilo lvl).mtime xfl os)[3]? = some 0
    ∧ (gzip_header (open_reproducible_gzip ia ilo lvl).filename
        (open_reproducible_gzip ia ilo lvl).mtime xfl os)[4]? = some 0
    ∧ (gzip_header (open_reproducible_gzip ia ilo lvl).filename
        (open_reproducible_gzip ia ilo lvl).mtime xfl os)[5]? = some 0
    ∧ (gzip_header (open_reproducible_gzip ia ilo lvl).filename
        (open_reproducible_gzip ia ilo lvl).mtime xfl os)[6]? = some 0
    ∧ (gzip_header (open_reproducible_gzip ia ilo lvl).filename
        (open_reproducible_gzip ia ilo lvl).mtime xfl os)[7]? = some 0
    ∧ "--no-name" ∈ gzip_writer_program_args
    ∧ "--no-name" ∈ pigz_writer_program_args
    ∧ "--no-name" ∈ igzip_writer_program_args
    ∧ "--no-name" ∈ python_isal_writer_program_args pyexe := by
  have hargs : (open_reproducible_gzip ia ilo lvl).filename = ""
      ∧ (open_reproducible_gzip ia ilo lvl).mtime = 0 := by
    unfold open_reproducible_gzip
    split_ifs <;> exact ⟨rfl, rfl⟩
  refine ⟨hargs.1, hargs.2, ?_, ?_, ?_, ?_, ?_, by decide, by decide, by decide, ?_⟩
  · rw [hargs.1, hargs.2]; simp [gzip_header, le32]
  · rw [hargs.1, hargs.2]; simp [gzip_header, le32]
  · rw [hargs.1, hargs.2]; simp [gzip_header, le32]
  · rw [hargs.1, hargs.2]; simp [gzip_header, le32]
  · rw [hargs.1, hargs.2]; simp [gzip_header, le32]
  · simp [python_isal_writer_program_args]

/-- C10: calling xopen with compresslevel 0 on a zstd destination (explicit
"zst" format override, or a filename whose extension detects as zst) trips the
bare `assert compresslevel != 0` at the top of `_open_zst`, yielding an
AssertionError — whereas another out-of-range zstd level such as 20 on the
write path yields the descriptive "compresslevel must be" ValueError. -/
theorem zstd_level_zero_assertion_error (env : Env) (fn : String)
    (is_reg : Bool) (content : List Nat) (m : Mode) (threads : Option Int)
    (b : Bool) (hext : detect_format_from_extension fn = some Format.zst) :
    (xopen_select env fn is_reg content (some Format.zst) m (some 0) threads).2 =
        Except.error OpenErr.assertionError
    ∧ (xopen_select env fn is_reg content none m (some 0) threads).2 =
        Except.error OpenErr.assertionError
    ∧ (open_zst env (Mode.mk ModeK.write b) (some 20) (some 1)).2 =
        Except.error (OpenErr.valueError "compresslevel must be between 1 and 19") := by
  refine ⟨?_, ?_, ?_⟩
  · simp [xopen_select, choose_format, open_zst]
  · have hcf : choose_format none fn m is_reg content = some Format.zst := by
      simp [choose_format, hext]
    simp [xopen_select, hcf, open_zst]
  · simp [open_zst, Mode.hasR, PipedZstdWriter_init, level_rejected,
      zstd_level_accepted, inPyRange]

/-- Witness for C10 at a concrete input: the filename "file.zst" detects as
zst by extension, and with compresslevel 0 xopen reaches the assertion. -/
theorem zstd_level_zero_assertion_error_witness :
    detect_format_from_extension "file.zst" = some Format.zst
    ∧ (xopen_select (Env.mk true true true true true true true true true true true)
        "file.zst" true [] none (Mode.mk ModeK.read false) (some 0) none).2 =
      Except.error OpenErr.assertionError :=
  ⟨by decide,
    (zstd_level_zero_assertion_error
      (Env.mk true true true true true true true true true true true)
      "file.zst" true [] (Mode.mk ModeK.read false) none false (by decide)).2.1⟩

end Xopen
